import Mathlib

/-
Verification of the token lifecycle subsystem of the cookbook browser
extension.  The definitions below are a shallow embedding of the relevant
source files:

  * token-storage.js (bundled in main.js): encryptData, decryptData,
    storeAuthTokens, getAccessToken, hasValidToken, getTokenTimeRemaining,
    clearAuthData, refreshAccessToken, setupTokenRefresh;
  * google-auth.js: onAuthStateChanged, notifyListeners, signOut,
    getAuthToken;
  * token-manager.js: initializeTokenManager, handleTokenAlarm,
    checkAndRefreshToken, requestTokenRefresh.

Timestamps are milliseconds as returned by Date.now and are modelled as
integers.  The WebCrypto AES-GCM cipher and the btoa/atob base64 codec are
external browser primitives; they are modelled ideally (an authenticated
ciphertext determines the key, nonce and plaintext that produced it, and
decryption checks the pair), which is the standard idealization of an AEAD.
Everything else is translated statement by statement from the source.
-/

namespace Cookbook

/-- Byte sequences (the contents of a Uint8Array) are modelled as lists of
naturals. -/
abbrev Bytes := List Nat

/-- Ideal model of a WebCrypto AES-GCM ciphertext: authenticated encryption
is modelled ideally, so a ciphertext determines the key, the initialization
vector and the plaintext it was produced from. -/
structure Ciphertext where
  key : Bytes
  iv : Bytes
  plaintext : String
deriving DecidableEq, Repr

/-- Ideal model of crypto.subtle.encrypt with AES-GCM, as invoked in the body
of encryptData (main.js lines 512-519). -/
def aesGcmEncrypt (key : Bytes) (iv : Bytes) (data : String) : Ciphertext :=
  ⟨key, iv, data⟩

/-- Ideal model of crypto.subtle.decrypt with AES-GCM, as invoked in the body
of decryptData (main.js lines 550-557): decryption succeeds exactly when the
supplied key and iv are the ones the ciphertext was produced with; otherwise
the authentication-tag check fails (the browser raises OperationError). -/
def aesGcmDecrypt (key : Bytes) (iv : Bytes) (ct : Ciphertext) : Option String :=
  if ct.key = key ∧ ct.iv = iv then some ct.plaintext else none

/-- Model of a base64 string as produced by arrayBufferToBase64 (main.js
lines 573-580): btoa is injective on byte strings and atob inverts it, so the
pair is modelled as an ideal bijection wrapping the underlying buffer. -/
structure Base64String where
  buffer : Ciphertext
deriving DecidableEq, Repr

/-- arrayBufferToBase64 (main.js lines 573-580), the ideal encoder. -/
def arrayBufferToBase64 (buffer : Ciphertext) : Base64String :=
  ⟨buffer⟩

/-- base64ToArrayBuffer (main.js lines 587-594), the ideal decoder. -/
def base64ToArrayBuffer (s : Base64String) : Ciphertext :=
  s.buffer

/-- Error taxonomy as realized by the code.  noToken is the thrown Error with
message No access token found (main.js line 344); refreshFailed is Token
expired and refresh failed (line 354); integrity is the decryption failure
rethrown by decryptData (line 564); tokenUnavailable is the Error with
message Authentication token unavailable thrown by getAuthToken in
google-auth.js (line 298). -/
inductive AuthError where
  | noToken
  | refreshFailed
  | integrity
  | tokenUnavailable
deriving DecidableEq, Repr

/-- encryptData (main.js lines 496-527): encrypts with the module-wide
ENCRYPTION_KEY (passed explicitly here) and the supplied iv, then encodes the
result in base64. -/
def encryptData (encryptionKey : Bytes) (data : String) (iv : Bytes) : Base64String :=
  arrayBufferToBase64 (aesGcmEncrypt encryptionKey iv data)

/-- decryptData (main.js lines 535-566): base64-decodes and decrypts with the
module-wide key; a failed authentication check is rethrown, modelled as
AuthError.integrity. -/
def decryptData (encryptionKey : Bytes) (encryptedData : Base64String) (iv : Bytes) :
    Except AuthError String :=
  match aesGcmDecrypt encryptionKey iv (base64ToArrayBuffer encryptedData) with
  | some s => Except.ok s
  | none => Except.error AuthError.integrity

/-- Contents of chrome.storage.local under the six STORAGE_KEYS of
token-storage.js (main.js lines 276-283); a field is none when the key is
absent.  The expiration field is a Date.now timestamp in milliseconds. -/
structure Storage where
  accessToken : Option Base64String
  refreshToken : Option Base64String
  idToken : Option Base64String
  userData : Option Base64String
  expiration : Option Int
  encryptionIv : Option Bytes
deriving DecidableEq, Repr

/-- The storage state with every key absent. -/
def emptyStorage : Storage :=
  ⟨none, none, none, none, none, none⟩

/-- storeAuthTokens (main.js lines 294-328).  chrome.storage.local.set only
writes the keys present in storageData, so when refreshToken (respectively
idToken) is absent the previously stored value is left in place.  The fresh
random iv and the current time are passed as explicit parameters. -/
def storeAuthTokens (encryptionKey : Bytes) (now : Int) (iv : Bytes)
    (accessToken : String) (refreshToken : Option String) (idToken : Option String)
    (userData : String) (expiresIn : Int) (st : Storage) : Storage :=
  { accessToken := some (encryptData encryptionKey accessToken iv)
    expiration := some (now + expiresIn * 1000)
    userData := some (encryptData encryptionKey userData iv)
    encryptionIv := some iv
    refreshToken :=
      match refreshToken with
      | some rt => some (encryptData encryptionKey rt iv)
      | none => st.refreshToken
    idToken :=
      match idToken with
      | some t => some (encryptData encryptionKey t iv)
      | none => st.idToken }

/-- hasValidToken (main.js lines 394-406): a token is present and
Date.now() is strictly below the stored expiration; a missing expiration
makes the comparison false. -/
def hasValidToken (now : Int) (st : Storage) : Bool :=
  st.accessToken.isSome &&
    match st.expiration with
    | some e => decide (now < e)
    | none => false

/-- getTokenTimeRemaining (main.js lines 412-426): Math.floor of the
millisecond difference divided by 1000, clamped at 0; Int division by the
positive constant 1000 is floor division, matching Math.floor. -/
def getTokenTimeRemaining (now : Int) (st : Storage) : Int :=
  match st.expiration with
  | none => 0
  | some e => max 0 ((e - now) / 1000)

/-- clearAuthData (main.js lines 432-440): removes every STORAGE_KEYS key. -/
def clearAuthData (_st : Storage) : Storage :=
  emptyStorage

/-- Shape of the JSON answer of the token exchange endpoint, as consumed by
refreshAccessToken (main.js lines 469-477). -/
structure RefreshResponse where
  success : Bool
  accessToken : String
  refreshToken : Option String
  idToken : Option String
  userData : String
  expiresIn : Int
deriving DecidableEq, Repr

/-- refreshAccessToken (main.js lines 446-488).  The network exchange
(simulateTokenRefresh) is an external call, passed as the parameter
exchange; an exchange value of none models a thrown network exception, which
the surrounding try/catch turns into a null result.  On success the new
record is written through storeAuthTokens, keeping the old refresh token when
the provider did not rotate it; on every failure the function returns null
and performs no write. -/
def refreshAccessToken (encryptionKey : Bytes) (now : Int) (newIv : Bytes)
    (exchange : String → Option RefreshResponse) (st : Storage) :
    Option String × Storage :=
  match st.refreshToken with
  | none => (none, st)
  | some ct =>
    match decryptData encryptionKey ct (st.encryptionIv.getD []) with
    | Except.error _ => (none, st)
    | Except.ok refreshToken =>
      match exchange refreshToken with
      | none => (none, st)
      | some resp =>
        if resp.success then
          (some resp.accessToken,
           storeAuthTokens encryptionKey now newIv resp.accessToken
             (some (resp.refreshToken.getD refreshToken)) resp.idToken
             resp.userData resp.expiresIn st)
        else (none, st)

/-- getAccessToken (main.js lines 334-364).  The expiry test is the strict
comparison Date.now() > expiration of line 348 (false when the expiration key
is absent); the expired branch delegates to refreshAccessToken and throws
Token expired and refresh failed when it returns null; the fresh branch
decrypts with the stored iv and rethrows any decryption failure raw (the
catch of lines 360-363 logs and rethrows). -/
def getAccessToken (encryptionKey : Bytes) (now : Int) (newIv : Bytes)
    (exchange : String → Option RefreshResponse) (st : Storage) :
    Except AuthError String × Storage :=
  match st.accessToken with
  | none => (Except.error AuthError.noToken, st)
  | some ct =>
    let expired : Bool :=
      match st.expiration with
      | some e => decide (e < now)
      | none => false
    if expired then
      match refreshAccessToken encryptionKey now newIv exchange st with
      | (some newToken, st2) => (Except.ok newToken, st2)
      | (none, st2) => (Except.error AuthError.refreshFailed, st2)
    else
      match decryptData encryptionKey ct (st.encryptionIv.getD []) with
      | Except.ok t => (Except.ok t, st)
      | Except.error e => (Except.error e, st)

/-- getAuthToken (google-auth.js lines 293-300): forwards getAccessToken and
replaces any failure with the Error Authentication token unavailable. -/
def getAuthToken (encryptionKey : Bytes) (now : Int) (newIv : Bytes)
    (exchange : String → Option RefreshResponse) (st : Storage) :
    Except AuthError String × Storage :=
  match getAccessToken encryptionKey now newIv exchange st with
  | (Except.ok t, st2) => (Except.ok t, st2)
  | (Except.error _, st2) => (Except.error AuthError.tokenUnavailable, st2)

/-- In-memory state of google-auth.js: currentUser (line 14) and
authListeners (line 15).  Users are modelled by their profile string and
listeners by identity tags, matching the reference identity used by the
filter in the unsubscribe closure. -/
structure AuthState where
  currentUser : Option String
  authListeners : List Nat
deriving DecidableEq, Repr

/-- onAuthStateChanged (google-auth.js lines 37-47): appends the listener,
then synchronously invokes it once with the current user; the second
component records that single immediate call. -/
def onAuthStateChanged (st : AuthState) (listener : Nat) :
    AuthState × (Nat × Option String) :=
  ({ st with authListeners := st.authListeners ++ [listener] },
   (listener, st.currentUser))

/-- The closure returned by onAuthStateChanged (google-auth.js lines 44-46):
replaces authListeners by its filtering under reference inequality with the
registered listener. -/
def unsubscribe (st : AuthState) (listener : Nat) : AuthState :=
  { st with authListeners := st.authListeners.filter (fun x => x ≠ listener) }

/-- notifyListeners (google-auth.js lines 53-55): calls every registered
listener with the given user; the result records the calls in order. -/
def notifyListeners (st : AuthState) (user : Option String) : List (Nat × Option String) :=
  st.authListeners.map (fun l => (l, user))

/-- Observable outcome of signOut: the in-memory state, the storage, the
notification calls, and whether remote revocation was attempted and
succeeded. -/
structure SignOutResult where
  auth : AuthState
  storage : Storage
  notified : List (Nat × Option String)
  revokeAttempted : Bool
  revokeSucceeded : Bool
deriving Repr

/-- signOut (google-auth.js lines 195-220): reads the access token with all
failures swallowed to null (line 198), clears the stored record, attempts
revocation when a token was obtained — the try/catch of lines 206-210 only
logs a revocation failure, so the revokeOk outcome of the external revocation
endpoint has no effect on the resulting state — then sets currentUser to null
and notifies every subscriber with null. -/
def signOut (encryptionKey : Bytes) (now : Int) (newIv : Bytes)
    (exchange : String → Option RefreshResponse) (revokeOk : Bool)
    (auth : AuthState) (st : Storage) : SignOutResult :=
  let r := getAccessToken encryptionKey now newIv exchange st
  let tokenObtained : Bool :=
    match r.1 with
    | Except.ok _ => true
    | Except.error _ => false
  let auth2 : AuthState := { auth with currentUser := none }
  { auth := auth2
    storage := clearAuthData r.2
    notified := notifyListeners auth2 none
    revokeAttempted := tokenObtained
    revokeSucceeded := tokenObtained && revokeOk }

/-- REFRESH_THRESHOLD (token-manager.js line 13). -/
def REFRESH_THRESHOLD : Int := 5 * 60

/-- TOKEN_CHECK_INTERVAL (token-manager.js line 12). -/
def TOKEN_CHECK_INTERVAL : Int := 15

/-- ALARM_NAME (token-manager.js line 11). -/
def ALARM_NAME : String := "token-refresh-alarm"

/-- checkAndRefreshToken (token-manager.js lines 47-79): does nothing without
a currently valid token; refreshes when less than REFRESH_THRESHOLD seconds
remain; on refresh success sends the message token-refreshed, on refresh
failure clears the stored record and sends auth-invalid.  The second
component lists the chrome.runtime.sendMessage action strings emitted. -/
def checkAndRefreshToken (encryptionKey : Bytes) (now : Int) (newIv : Bytes)
    (exchange : String → Option RefreshResponse) (st : Storage) :
    Storage × List String :=
  if !(hasValidToken now st) then (st, [])
  else
    let timeRemaining := getTokenTimeRemaining now st
    if timeRemaining < REFRESH_THRESHOLD then
      match refreshAccessToken encryptionKey now newIv exchange st with
      | (some _, st2) => (st2, ["token-refreshed"])
      | (none, st2) => (clearAuthData st2, ["auth-invalid"])
    else (st, [])

/-- requestTokenRefresh (token-manager.js lines 109-121): calls
refreshAccessToken directly; on success sends token-refreshed; on failure it
merely returns false — it neither clears the record nor sends any message. -/
def requestTokenRefresh (encryptionKey : Bytes) (now : Int) (newIv : Bytes)
    (exchange : String → Option RefreshResponse) (st : Storage) :
    Bool × Storage × List String :=
  match refreshAccessToken encryptionKey now newIv exchange st with
  | (some _, st2) => (true, st2, ["token-refreshed"])
  | (none, st2) => (false, st2, [])

/-- An alarm registration passed to chrome.alarms.create: the name and the
periodInMinutes or delayInMinutes options.  The delay is a rational because
token-manager and main.js pass the result of a floating-point division of
whole seconds by 60. -/
structure AlarmRequest where
  name : String
  periodInMinutes : Option Int
  delayInMinutes : Option Rat
deriving DecidableEq, Repr

/-- The alarm registered by initializeTokenManager (token-manager.js lines
18-31): a periodic alarm named ALARM_NAME with period TOKEN_CHECK_INTERVAL
minutes.  The function also installs handleTokenAlarm as the alarm listener
and runs one initial checkAndRefreshToken, modelled by the theorems below. -/
def initializeTokenManager : AlarmRequest :=
  ⟨ALARM_NAME, some TOKEN_CHECK_INTERVAL, none⟩

/-- handleTokenAlarm (token-manager.js lines 37-42): runs
checkAndRefreshToken only when the firing alarm is named ALARM_NAME; the
firing of any alarm with another name leaves the state untouched and sends
nothing. -/
def handleTokenAlarm (encryptionKey : Bytes) (now : Int) (newIv : Bytes)
    (exchange : String → Option RefreshResponse) (alarmName : String) (st : Storage) :
    Storage × List String :=
  if alarmName = ALARM_NAME then
    checkAndRefreshToken encryptionKey now newIv exchange st
  else (st, [])

/-- Action taken by setupTokenRefresh: nothing, an immediate refresh, or the
registration of a one-shot alarm. -/
inductive ScheduleAction where
  | idle
  | refreshNow
  | createAlarm (name : String) (delayInMinutes : Rat)
deriving DecidableEq, Repr

/-- setupTokenRefresh (main.js lines 632-650): with time remaining, refresh
immediately when below 300 seconds, otherwise create a one-shot alarm named
manual-token-refresh with delay max(1, (timeRemaining - 300) / 60) minutes. -/
def setupTokenRefresh (now : Int) (st : Storage) : ScheduleAction :=
  let timeRemaining := getTokenTimeRemaining now st
  if 0 < timeRemaining then
    if timeRemaining < 300 then ScheduleAction.refreshNow
    else
      ScheduleAction.createAlarm "manual-token-refresh"
        (max 1 (((timeRemaining - 300 : Int) : Rat) / 60))
  else ScheduleAction.idle

/-
Concurrency model for two overlapping getAccessToken calls.

The extension runs on a cooperative event loop: a caller suspends at each
await and other callers may interleave there.  Each caller of getAccessToken
on an expired token is a small state machine whose steps mirror the await
points of getAccessToken and refreshAccessToken in main.js:

  * start        — the storage reads and expiry check of getAccessToken
                   (lines 336-348) together with the refresh-token read and
                   decryption at the head of refreshAccessToken (lines
                   449-460); these are reads only, so collapsing them into
                   one step loses no write interleavings;
  * doExchange   — the network exchange (line 467); the global counter
                   exchangeCalls counts these calls, and exchangeFn gives the
                   response to the n-th exchange issued system-wide;
  * storeResult  — the storeAuthTokens write and return (lines 469-483);
  * done         — the value returned (or error thrown) to that caller.

Nothing in the source tracks an in-flight refresh, so a step of one caller
never consults the progress of the other.
-/

/-- Program counter of one concurrent getAccessToken caller. -/
inductive CallerPC where
  | start
  | doExchange (refreshToken : String)
  | storeResult (resp : RefreshResponse) (oldRefreshToken : String)
  | done (result : Except AuthError String)
deriving Repr

/-- Shared state of the two-caller system: the storage, the number of
exchange calls issued so far, and both program counters. -/
structure ConcState where
  storage : Storage
  exchangeCalls : Nat
  caller0 : CallerPC
  caller1 : CallerPC
deriving Repr

/-- One step of a single caller, mirroring getAccessToken and
refreshAccessToken as described above. -/
def callerStep (encryptionKey : Bytes) (now : Int) (myIv : Bytes)
    (exchangeFn : Nat → RefreshResponse)
    (storage : Storage) (calls : Nat) (pc : CallerPC) :
    Storage × Nat × CallerPC :=
  match pc with
  | CallerPC.start =>
    match storage.accessToken with
    | none => (storage, calls, CallerPC.done (Except.error AuthError.noToken))
    | some ct =>
      let expired : Bool :=
        match storage.expiration with
        | some e => decide (e < now)
        | none => false
      if expired then
        match storage.refreshToken with
        | none => (storage, calls, CallerPC.done (Except.error AuthError.refreshFailed))
        | some rct =>
          match decryptData encryptionKey rct (storage.encryptionIv.getD []) with
          | Except.error _ =>
            (storage, calls, CallerPC.done (Except.error AuthError.refreshFailed))
          | Except.ok rt => (storage, calls, CallerPC.doExchange rt)
      else
        match decryptData encryptionKey ct (storage.encryptionIv.getD []) with
        | Except.ok t => (storage, calls, CallerPC.done (Except.ok t))
        | Except.error e => (storage, calls, CallerPC.done (Except.error e))
  | CallerPC.doExchange rt =>
    (storage, calls + 1, CallerPC.storeResult (exchangeFn calls) rt)
  | CallerPC.storeResult resp rt =>
    if resp.success then
      (storeAuthTokens encryptionKey now myIv resp.accessToken
         (some (resp.refreshToken.getD rt)) resp.idToken resp.userData
         resp.expiresIn storage,
       calls, CallerPC.done (Except.ok resp.accessToken))
    else (storage, calls, CallerPC.done (Except.error AuthError.refreshFailed))
  | CallerPC.done r => (storage, calls, CallerPC.done r)

/-- One step of the whole system, advancing caller 1 when which is true and
caller 0 otherwise. -/
def sysStep (encryptionKey : Bytes) (now : Int) (iv0 iv1 : Bytes)
    (exchangeFn : Nat → RefreshResponse) (which : Bool) (s : ConcState) : ConcState :=
  if which then
    let r := callerStep encryptionKey now iv1 exchangeFn s.storage s.exchangeCalls s.caller1
    { s with storage := r.1, exchangeCalls := r.2.1, caller1 := r.2.2 }
  else
    let r := callerStep encryptionKey now iv0 exchangeFn s.storage s.exchangeCalls s.caller0
    { s with storage := r.1, exchangeCalls := r.2.1, caller0 := r.2.2 }

/-- Run of the system under an interleaving schedule. -/
def runSchedule (encryptionKey : Bytes) (now : Int) (iv0 iv1 : Bytes)
    (exchangeFn : Nat → RefreshResponse) (sched : List Bool) (s : ConcState) : ConcState :=
  sched.foldl (fun acc w => sysStep encryptionKey now iv0 iv1 exchangeFn w acc) s

/-- A stored record holding the access token oldtok, a refresh token, and an
expiration timestamp of 1000 ms, all encrypted under key 1 with iv 2. -/
def stBoundary : Storage :=
  { accessToken := some (encryptData [1] "oldtok" [2])
    refreshToken := some (encryptData [1] "rt" [2])
    idToken := none
    userData := some (encryptData [1] "user" [2])
    expiration := some 1000
    encryptionIv := some [2] }

/-- A token exchange that always succeeds and yields the token freshtok. -/
def exchangeAlwaysOk : String → Option RefreshResponse :=
  fun _ => some ⟨true, "freshtok", some "freshrt", none, "user", 3600⟩

/-- A token exchange the provider always rejects. -/
def exchangeAlwaysFail : String → Option RefreshResponse :=
  fun _ => some ⟨false, "", none, none, "", 0⟩

/-- A stored record that is valid at time 0 and expires 200 seconds later,
inside the 300-second refresh threshold. -/
def stSoon : Storage :=
  { accessToken := some (encryptData [1] "tok" [2])
    refreshToken := some (encryptData [1] "rt" [2])
    idToken := none
    userData := some (encryptData [1] "user" [2])
    expiration := some 200000
    encryptionIv := some [2] }

/-- A stored record that is valid at time 0 and expires 1000 seconds later,
outside the refresh threshold. -/
def stLong : Storage :=
  { accessToken := some (encryptData [1] "tok" [2])
    refreshToken := some (encryptData [1] "rt" [2])
    idToken := none
    userData := some (encryptData [1] "user" [2])
    expiration := some 1000000
    encryptionIv := some [2] }

/-- A stored record whose ciphertexts were produced under key 9, while the
process-wide key in use is key 1: decryption of the record fails. -/
def stWrongKey : Storage :=
  { accessToken := some (encryptData [9] "tok" [2])
    refreshToken := none
    idToken := none
    userData := none
    expiration := some 99999
    encryptionIv := some [2] }

/-- Exchange responses for the two-caller run: the n-th exchange issued
system-wide answers with its own tokens. -/
def concExchange (tA tB rA rB u : String) : Nat → RefreshResponse :=
  fun n =>
    if n = 0 then ⟨true, tA, some rA, none, u, 3600⟩
    else ⟨true, tB, some rB, none, u, 3600⟩

/-- Initial state of the two-caller run: the stored token is expired at time
5000 and both callers are about to enter getAccessToken. -/
def concInit : ConcState :=
  ⟨stBoundary, 0, CallerPC.start, CallerPC.start⟩

/-- The canonical racing interleaving: both callers pass the expiry check and
reach their exchange before either refresh writes back. -/
def concSchedule : List Bool :=
  [false, true, false, false, true, true]

/-- Helper: whenever refreshAccessToken fails (returns null), it has written
nothing and the storage is returned unchanged. -/
theorem refreshAccessToken_fail_frame (encryptionKey : Bytes) (now : Int) (newIv : Bytes)
    (exchange : String → Option RefreshResponse) (st : Storage)
    (h : (refreshAccessToken encryptionKey now newIv exchange st).1 = none) :
    (refreshAccessToken encryptionKey now newIv exchange st).2 = st := by
  cases hrt : st.refreshToken with
  | none => simp [refreshAccessToken, hrt]
  | some ct =>
    cases hdec : decryptData encryptionKey ct (st.encryptionIv.getD []) with
    | error e => simp [refreshAccessToken, hrt, hdec]
    | ok rt =>
      cases hex : exchange rt with
      | none => simp [refreshAccessToken, hrt, hdec, hex]
      | some resp =>
        by_cases hs : resp.success
        · exfalso
          simp [refreshAccessToken, hrt, hdec, hex, hs] at h
        · simp [refreshAccessToken, hrt, hdec, hex, hs]

/-- Helper: whenever refreshAccessToken fails, the whole result is the pair
of null and the unchanged storage. -/
theorem refreshAccessToken_fail_pair (encryptionKey : Bytes) (now : Int) (newIv : Bytes)
    (exchange : String → Option RefreshResponse) (st : Storage)
    (h : (refreshAccessToken encryptionKey now newIv exchange st).1 = none) :
    refreshAccessToken encryptionKey now newIv exchange st = (none, st) := by
  rw [Prod.ext_iff]
  exact ⟨h, refreshAccessToken_fail_frame encryptionKey now newIv exchange st h⟩

/-- C3: for every plaintext x and every (key, nonce) pair, decrypting the
encryption of x under the same key and nonce returns x, while decrypting
under a different key or a different nonce fails with IntegrityError and
never returns a plaintext. -/
theorem c3_encrypt_decrypt_roundtrip (key key2 iv iv2 : Bytes) (x : String)
    (h : key2 ≠ key ∨ iv2 ≠ iv) :
    decryptData key (encryptData key x iv) iv = Except.ok x ∧
    decryptData key2 (encryptData key x iv) iv2 = Except.error AuthError.integrity := by
  have hne : ¬(key = key2 ∧ iv = iv2) := by
    rintro ⟨hk, hiv⟩
    rcases h with h | h
    · exact h hk.symm
    · exact h hiv.symm
  constructor
  · simp [decryptData, encryptData, aesGcmDecrypt, aesGcmEncrypt,
      arrayBufferToBase64, base64ToArrayBuffer]
  · simp [decryptData, encryptData, aesGcmDecrypt, aesGcmEncrypt,
      arrayBufferToBase64, base64ToArrayBuffer, hne]

/-- Witness for C3 at concrete keys and nonces. -/
theorem c3_encrypt_decrypt_roundtrip_witness :
    ([0] : Bytes) ≠ [1] ∧
    decryptData [1] (encryptData [1] "secret" [2]) [2] = Except.ok "secret" ∧
    decryptData [0] (encryptData [1] "secret" [2]) [2] = Except.error AuthError.integrity := by
  refine ⟨by decide, ?_⟩
  exact c3_encrypt_decrypt_roundtrip [1] [0] [2] [2] "secret" (Or.inl (by decide))

/-- C4: immediately after storeAuthTokens with a positive expiresIn, the
stored record is valid and the reported time remaining equals expiresIn, in
particular it is within 1 second of expiresIn. -/
theorem c4_save_postcondition (encryptionKey : Bytes) (now : Int) (iv : Bytes)
    (accessToken : String) (refreshToken idToken : Option String)
    (userData : String) (expiresIn : Int) (st : Storage) (h : 0 < expiresIn) :
    hasValidToken now (storeAuthTokens encryptionKey now iv accessToken refreshToken
      idToken userData expiresIn st) = true ∧
    getTokenTimeRemaining now (storeAuthTokens encryptionKey now iv accessToken refreshToken
      idToken userData expiresIn st) = expiresIn ∧
    (getTokenTimeRemaining now (storeAuthTokens encryptionKey now iv accessToken refreshToken
      idToken userData expiresIn st) - expiresIn).natAbs ≤ 1 := by
  have h2 : getTokenTimeRemaining now (storeAuthTokens encryptionKey now iv accessToken
      refreshToken idToken userData expiresIn st) = expiresIn := by
    simp only [getTokenTimeRemaining, storeAuthTokens]
    omega
  refine ⟨?_, h2, by omega⟩
  simp only [hasValidToken, storeAuthTokens, Option.isSome_some, Bool.true_and]
  simp only [decide_eq_true_eq]
  omega

/-- Witness for C4 at a concrete save. -/
theorem c4_save_postcondition_witness :
    (0 : Int) < 3600 ∧
    hasValidToken 0 (storeAuthTokens [1] 0 [2] "t" none none "u" 3600 emptyStorage) = true ∧
    getTokenTimeRemaining 0 (storeAuthTokens [1] 0 [2] "t" none none "u" 3600 emptyStorage) = 3600 := by
  refine ⟨by decide, ?_⟩
  have h := c4_save_postcondition [1] 0 [2] "t" none none "u" 3600 emptyStorage (by decide)
  exact ⟨h.1, h.2.1⟩

/-- C10: whenever refreshAccessToken fails (no refresh token stored, the
exchange rejected, or an exception), it returns null and the persisted
record is exactly as it was: every stored field is unmodified. -/
theorem c10_refresh_failure_frame (encryptionKey : Bytes) (now : Int) (newIv : Bytes)
    (exchange : String → Option RefreshResponse) (st : Storage)
    (h : (refreshAccessToken encryptionKey now newIv exchange st).1 = none) :
    refreshAccessToken encryptionKey now newIv exchange st = (none, st) :=
  refreshAccessToken_fail_pair encryptionKey now newIv exchange st h

/-- Witness for C10: the exchange rejects the refresh token and the stored
record survives untouched. -/
theorem c10_refresh_failure_frame_witness :
    (refreshAccessToken [1] 0 [3] exchangeAlwaysFail stSoon).1 = none ∧
    refreshAccessToken [1] 0 [3] exchangeAlwaysFail stSoon = (none, stSoon) :=
  ⟨rfl, c10_refresh_failure_frame [1] 0 [3] exchangeAlwaysFail stSoon rfl⟩

/-- C7: onAuthStateChanged appends the listener, synchronously invokes it
exactly once with the user state current at subscription time (so a
subscriber registered after sign-in is immediately called with the non-null
current user), leaves the current user unchanged, and the returned
unsubscribe closure removes exactly that listener, restoring the previous
listener list. -/
theorem c7_onAuthStateChanged_contract (st : AuthState) (l : Nat)
    (h : l ∉ st.authListeners) :
    (onAuthStateChanged st l).2 = (l, st.currentUser) ∧
    (onAuthStateChanged st l).1.authListeners = st.authListeners ++ [l] ∧
    (onAuthStateChanged st l).1.currentUser = st.currentUser ∧
    (unsubscribe (onAuthStateChanged st l).1 l).authListeners = st.authListeners := by
  refine ⟨rfl, rfl, rfl, ?_⟩
  show (st.authListeners ++ [l]).filter (fun x => x ≠ l) = st.authListeners
  rw [List.filter_append]
  have h1 : st.authListeners.filter (fun x => x ≠ l) = st.authListeners := by
    apply List.filter_eq_self.mpr
    intro a ha
    have hne : a ≠ l := fun heq => h (heq ▸ ha)
    simp [hne]
  have h2 : ([l].filter (fun x => x ≠ l) : List Nat) = [] := by simp
  rw [h1, h2, List.append_nil]

/-- Witness for C7: a subscriber registered while alice is signed in is
immediately called with alice, and its unsubscribe restores the list. -/
theorem c7_onAuthStateChanged_contract_witness :
    (onAuthStateChanged ⟨some "alice", [3, 4]⟩ 5).2 = (5, some "alice") ∧
    (onAuthStateChanged ⟨some "alice", [3, 4]⟩ 5).1.authListeners = [3, 4, 5] ∧
    (unsubscribe (onAuthStateChanged ⟨some "alice", [3, 4]⟩ 5).1 5).authListeners = [3, 4] := by
  have h := c7_onAuthStateChanged_contract ⟨some "alice", [3, 4]⟩ 5 (by decide)
  exact ⟨h.1, h.2.1, h.2.2.2⟩

/-- C8: for every outcome revokeOk of the remote revocation call and every
exchange behaviour, signOut clears the token store (so validity checks fail
at any later time), sets currentUser to null, and notifies every subscriber
with null; the resulting state does not depend on the revocation outcome,
which is only recorded, never surfaced. -/
theorem c8_signOut_robust (encryptionKey : Bytes) (now t : Int) (newIv : Bytes)
    (exchange : String → Option RefreshResponse) (revokeOk : Bool)
    (auth : AuthState) (st : Storage) :
    (signOut encryptionKey now newIv exchange revokeOk auth st).auth.currentUser = none ∧
    (signOut encryptionKey now newIv exchange revokeOk auth st).storage = emptyStorage ∧
    hasValidToken t (signOut encryptionKey now newIv exchange revokeOk auth st).storage = false ∧
    (signOut encryptionKey now newIv exchange revokeOk auth st).notified =
      auth.authListeners.map (fun l => (l, none)) ∧
    (signOut encryptionKey now newIv exchange revokeOk auth st).storage =
      (signOut encryptionKey now newIv exchange true auth st).storage ∧
    (signOut encryptionKey now newIv exchange revokeOk auth st).auth =
      (signOut encryptionKey now newIv exchange true auth st).auth :=
  ⟨rfl, rfl, rfl, rfl, rfl, rfl⟩

/-- C5 counterexample: at the instant now = expiresAt the record counts as
expired (hasValidToken is already false, and the specification defines a
record as valid only when now is strictly below expiresAt), yet
getAccessToken does not invoke the refresh engine — even though the exchange
would succeed and yield freshtok — and instead returns the stale decrypted
token with the storage untouched.  The code tests Date.now() > expiration
while validity is Date.now() < expiration, so the claimed case split is wrong
on the boundary. -/
theorem c5_counterexample :
    hasValidToken 1000 stBoundary = false ∧
    getAccessToken [1] 1000 [3] exchangeAlwaysOk stBoundary = (Except.ok "oldtok", stBoundary) :=
  ⟨rfl, rfl⟩

/-- C5 (amended): the contract of getAccessToken with the expiry boundary as
implemented: with no stored token it fails with NoTokenError; while
now ≤ expiresAt (including the boundary instant, where the record is already
invalid) it returns the decrypted stored token; when now > expiresAt it
invokes the refresh engine, returning the new token on refresh success and
failing with RefreshFailedError (storage untouched) on refresh failure. -/
theorem c5_getAccessToken_contract (encryptionKey : Bytes) (now : Int) (newIv : Bytes)
    (exchange : String → Option RefreshResponse) (st : Storage) :
    (st.accessToken = none →
      getAccessToken encryptionKey now newIv exchange st =
        (Except.error AuthError.noToken, st)) ∧
    (∀ ct e x, st.accessToken = some ct → st.expiration = some e → now ≤ e →
      decryptData encryptionKey ct (st.encryptionIv.getD []) = Except.ok x →
      getAccessToken encryptionKey now newIv exchange st = (Except.ok x, st)) ∧
    (∀ ct e t st2, st.accessToken = some ct → st.expiration = some e → e < now →
      refreshAccessToken encryptionKey now newIv exchange st = (some t, st2) →
      getAccessToken encryptionKey now newIv exchange st = (Except.ok t, st2)) ∧
    (∀ ct e, st.accessToken = some ct → st.expiration = some e → e < now →
      (refreshAccessToken encryptionKey now newIv exchange st).1 = none →
      getAccessToken encryptionKey now newIv exchange st =
        (Except.error AuthError.refreshFailed, st)) := by
  refine ⟨?_, ?_, ?_, ?_⟩
  · intro hab
    simp [getAccessToken, hab]
  · intro ct e x hct hexp hle hdec
    have hlt : ¬ (e < now) := not_lt.mpr hle
    simp [getAccessToken, hct, hexp, hlt, hdec]
  · intro ct e t st2 hct hexp hlt hre
    simp [getAccessToken, hct, hexp, hlt, hre]
  · intro ct e hct hexp hlt hre
    have hpair := refreshAccessToken_fail_pair encryptionKey now newIv exchange st hre
    simp [getAccessToken, hct, hexp, hlt, hpair]

/-- Witness for C5: each branch of the contract exercised at concrete
inputs: absent record, fresh record, expired record with successful refresh,
and expired record with rejected refresh. -/
theorem c5_getAccessToken_contract_witness :
    getAccessToken [1] 0 [3] exchangeAlwaysOk emptyStorage =
      (Except.error AuthError.noToken, emptyStorage) ∧
    getAccessToken [1] 5 [3] exchangeAlwaysOk stBoundary = (Except.ok "oldtok", stBoundary) ∧
    getAccessToken [1] 2000 [3] exchangeAlwaysOk stBoundary =
      (Except.ok "freshtok",
       storeAuthTokens [1] 2000 [3] "freshtok" (some "freshrt") none "user" 3600 stBoundary) ∧
    getAccessToken [1] 2000 [3] exchangeAlwaysFail stBoundary =
      (Except.error AuthError.refreshFailed, stBoundary) := by
  refine ⟨?_, ?_, ?_, ?_⟩
  · exact (c5_getAccessToken_contract [1] 0 [3] exchangeAlwaysOk emptyStorage).1 rfl
  · exact (c5_getAccessToken_contract [1] 5 [3] exchangeAlwaysOk stBoundary).2.1
      (encryptData [1] "oldtok" [2]) 1000 "oldtok" rfl rfl (by decide) rfl
  · exact (c5_getAccessToken_contract [1] 2000 [3] exchangeAlwaysOk stBoundary).2.2.1
      (encryptData [1] "oldtok" [2]) 1000 "freshtok"
      (storeAuthTokens [1] 2000 [3] "freshtok" (some "freshrt") none "user" 3600 stBoundary)
      rfl rfl (by decide) rfl
  · exact (c5_getAccessToken_contract [1] 2000 [3] exchangeAlwaysFail stBoundary).2.2.2
      (encryptData [1] "oldtok" [2]) 1000 rfl rfl (by decide) rfl

/-- C9 counterexample: a stored record encrypted under key 9 read with the
process key 1: getAccessToken propagates the raw IntegrityError out of the
token store — it is not translated into NoTokenError — and the unusable
record is left in storage rather than cleared. -/
theorem c9_counterexample :
    getAccessToken [1] 5 [3] exchangeAlwaysOk stWrongKey =
      (Except.error AuthError.integrity, stWrongKey) ∧
    stWrongKey.accessToken.isSome = true :=
  ⟨rfl, rfl⟩

/-- C9 (amended): a decryption failure on the stored ciphertext is rethrown
raw by the token store (getAccessToken), which also leaves the record in
place; the translation happens one layer up, in the auth session controller,
whose getAuthToken wraps every token store failure into the single error
Authentication token unavailable. -/
theorem c9_error_translation (encryptionKey : Bytes) (now : Int) (newIv : Bytes)
    (exchange : String → Option RefreshResponse) (st : Storage)
    (ct : Base64String) (e : Int)
    (hct : st.accessToken = some ct) (hexp : st.expiration = some e) (hle : now ≤ e)
    (hdec : decryptData encryptionKey ct (st.encryptionIv.getD []) =
      Except.error AuthError.integrity) :
    getAccessToken encryptionKey now newIv exchange st =
      (Except.error AuthError.integrity, st) ∧
    getAuthToken encryptionKey now newIv exchange st =
      (Except.error AuthError.tokenUnavailable, st) := by
  have hlt : ¬ (e < now) := not_lt.mpr hle
  have h1 : getAccessToken encryptionKey now newIv exchange st =
      (Except.error AuthError.integrity, st) := by
    simp [getAccessToken, hct, hexp, hlt, hdec]
  exact ⟨h1, by simp [getAuthToken, h1]⟩

/-- Witness for C9 on the key-mismatch record. -/
theorem c9_error_translation_witness :
    getAccessToken [1] 5 [3] exchangeAlwaysFail stWrongKey =
      (Except.error AuthError.integrity, stWrongKey) ∧
    getAuthToken [1] 5 [3] exchangeAlwaysFail stWrongKey =
      (Except.error AuthError.tokenUnavailable, stWrongKey) :=
  c9_error_translation [1] 5 [3] exchangeAlwaysFail stWrongKey
    (encryptData [9] "tok" [2]) 99999 rfl rfl (by decide) rfl

/-- C2 counterexample: the manual refresh request (requestTokenRefresh,
reachable through the refresh-token message) on a rejected exchange merely
returns false: the persisted record is NOT cleared — it still holds an
access token and the session is still reported valid afterwards — and no
auth-invalid message is emitted.  So the claimed behaviour does not hold on
every refresh path. -/
theorem c2_counterexample :
    requestTokenRefresh [1] 0 [3] exchangeAlwaysFail stSoon = (false, stSoon, []) ∧
    stSoon.accessToken.isSome = true ∧
    hasValidToken 0 stSoon = true :=
  ⟨rfl, rfl, rfl⟩

/-- C2 (amended): the clearing and notification behaviour on refresh failure
belongs to the scheduled check path only: when checkAndRefreshToken runs with
a currently valid token inside the refresh threshold and the refresh fails,
the record is cleared (all keys removed, so validity is false at every later
time) and exactly the auth-invalid message is emitted; the manual refresh
request instead returns false, leaves the record exactly as it was, and
emits nothing. -/
theorem c2_refresh_failure_paths (encryptionKey : Bytes) (now t : Int) (newIv : Bytes)
    (exchange : String → Option RefreshResponse) (st : Storage)
    (hvalid : hasValidToken now st = true)
    (hsoon : getTokenTimeRemaining now st < REFRESH_THRESHOLD)
    (hfail : (refreshAccessToken encryptionKey now newIv exchange st).1 = none) :
    checkAndRefreshToken encryptionKey now newIv exchange st =
      (emptyStorage, ["auth-invalid"]) ∧
    hasValidToken t emptyStorage = false ∧
    requestTokenRefresh encryptionKey now newIv exchange st = (false, st, []) := by
  have hpair := refreshAccessToken_fail_pair encryptionKey now newIv exchange st hfail
  refine ⟨?_, rfl, ?_⟩
  · simp [checkAndRefreshToken, hvalid, hsoon, hpair, clearAuthData]
  · simp [requestTokenRefresh, hpair]

/-- Witness for C2: a valid token 200 seconds from expiry and a rejecting
exchange: the scheduled check clears the record and emits auth-invalid. -/
theorem c2_refresh_failure_paths_witness :
    checkAndRefreshToken [1] 0 [3] exchangeAlwaysFail stSoon =
      (emptyStorage, ["auth-invalid"]) ∧
    hasValidToken 500000 emptyStorage = false :=
  have h := c2_refresh_failure_paths [1] 0 500000 [3] exchangeAlwaysFail stSoon
    rfl (by decide) rfl
  ⟨h.1, h.2.1⟩

/-- C6 counterexample: a state in which a check would actually refresh (valid
token, 200 seconds remaining, exchange succeeds).  The firing of the one-shot
alarm manual-token-refresh registered by setupTokenRefresh changes nothing
and emits nothing — the only alarm listener, handleTokenAlarm, reacts solely
to the name token-refresh-alarm, whose firing on the same state does perform
the refresh.  So the one-shot reschedule never invokes check-and-refresh. -/
theorem c6_counterexample :
    handleTokenAlarm [1] 0 [3] exchangeAlwaysOk "manual-token-refresh" stSoon = (stSoon, []) ∧
    handleTokenAlarm [1] 0 [3] exchangeAlwaysOk "token-refresh-alarm" stSoon ≠ (stSoon, []) := by
  refine ⟨rfl, ?_⟩
  intro h
  have h2 := congrArg Prod.snd h
  simp [handleTokenAlarm, ALARM_NAME, checkAndRefreshToken, REFRESH_THRESHOLD,
    hasValidToken, getTokenTimeRemaining, stSoon, refreshAccessToken,
    decryptData, aesGcmDecrypt, base64ToArrayBuffer, encryptData,
    arrayBufferToBase64, aesGcmEncrypt, exchangeAlwaysOk] at h2

/-- C6 (amended): the scheduler as implemented: initializeTokenManager
registers the periodic baseline alarm token-refresh-alarm every 15 minutes,
whose firing invokes the check-and-refresh procedure; after the sign-in and
session-load token writes (not after refresh-driven writes),
setupTokenRefresh registers a one-shot alarm named manual-token-refresh with
a delay of (timeRemaining - 300) / 60 minutes, that is 5 minutes before
expiry, but the firing of that alarm is matched by no listener and invokes
nothing: the state is unchanged and no message is sent. -/
theorem c6_scheduler_design (encryptionKey : Bytes) (now : Int) (newIv : Bytes)
    (exchange : String → Option RefreshResponse) (st : Storage)
    (h : 360 ≤ getTokenTimeRemaining now st) :
    initializeTokenManager = ⟨"token-refresh-alarm", some 15, none⟩ ∧
    handleTokenAlarm encryptionKey now newIv exchange "token-refresh-alarm" st =
      checkAndRefreshToken encryptionKey now newIv exchange st ∧
    (∃ d : Rat, setupTokenRefresh now st = ScheduleAction.createAlarm "manual-token-refresh" d ∧
      d * 60 = ((getTokenTimeRemaining now st - 300 : Int) : Rat)) ∧
    handleTokenAlarm encryptionKey now newIv exchange "manual-token-refresh" st = (st, []) := by
  have h0 : (0 : Int) < getTokenTimeRemaining now st := by omega
  have h300 : ¬ (getTokenTimeRemaining now st < 300) := by omega
  refine ⟨rfl, ?_, ?_, ?_⟩
  · simp [handleTokenAlarm, ALARM_NAME]
  · refine ⟨max 1 (((getTokenTimeRemaining now st - 300 : Int) : Rat) / 60), ?_, ?_⟩
    · simp [setupTokenRefresh, h0, h300]
    · have h60 : (60 : Rat) ≤ ((getTokenTimeRemaining now st - 300 : Int) : Rat) := by
        have hint : (60 : Int) ≤ getTokenTimeRemaining now st - 300 := by omega
        exact_mod_cast hint
      have hmax : max 1 (((getTokenTimeRemaining now st - 300 : Int) : Rat) / 60) =
          ((getTokenTimeRemaining now st - 300 : Int) : Rat) / 60 := by
        apply max_eq_right
        rw [one_le_div (by norm_num : (0 : Rat) < 60)]
        exact h60
      rw [hmax, div_mul_cancel₀]
      norm_num
  · simp [handleTokenAlarm, ALARM_NAME]

/-- Witness for C6: a token with 1000 seconds remaining: the one-shot alarm
firing is a no-op while the periodic alarm firing runs the check. -/
theorem c6_scheduler_design_witness :
    handleTokenAlarm [1] 0 [3] exchangeAlwaysOk "manual-token-refresh" stLong = (stLong, []) ∧
    setupTokenRefresh 0 stLong =
      ScheduleAction.createAlarm "manual-token-refresh" (max 1 ((700 : Rat) / 60)) := by
  have h := c6_scheduler_design [1] 0 [3] exchangeAlwaysOk stLong (by decide)
  exact ⟨h.2.2.2, rfl⟩

/-- C1 counterexample: two getAccessToken callers racing on the expired
record stBoundary at time 5000 under the interleaving in which both observe
the expired token before either refresh completes: two token-exchange calls
are issued (the claim says exactly one), and the callers receive different
tokens (the claim says both receive the same token). -/
theorem c1_counterexample :
    (runSchedule [1] 5000 [7] [8] (concExchange "newtokenA" "newtokenB" "rA" "rB" "u")
      concSchedule concInit).exchangeCalls = 2 ∧
    (runSchedule [1] 5000 [7] [8] (concExchange "newtokenA" "newtokenB" "rA" "rB" "u")
      concSchedule concInit).caller0 = CallerPC.done (Except.ok "newtokenA") ∧
    (runSchedule [1] 5000 [7] [8] (concExchange "newtokenA" "newtokenB" "rA" "rB" "u")
      concSchedule concInit).caller1 = CallerPC.done (Except.ok "newtokenB") ∧
    "newtokenA" ≠ "newtokenB" :=
  ⟨rfl, rfl, rfl, by decide⟩

/-- C1 (amended): nothing in the code tracks an in-flight refresh, so under
the racing interleaving each of the two concurrent getAccessToken callers
independently issues its own token-exchange call — two exchanges in total —
and each caller receives the token of its own exchange, whatever
(successful) tokens the two exchanges return; the callers therefore need not
receive the same token. -/
theorem c1_concurrent_refresh (tA tB rA rB u : String) :
    (runSchedule [1] 5000 [7] [8] (concExchange tA tB rA rB u)
      concSchedule concInit).exchangeCalls = 2 ∧
    (runSchedule [1] 5000 [7] [8] (concExchange tA tB rA rB u)
      concSchedule concInit).caller0 = CallerPC.done (Except.ok tA) ∧
    (runSchedule [1] 5000 [7] [8] (concExchange tA tB rA rB u)
      concSchedule concInit).caller1 = CallerPC.done (Except.ok tB) :=
  ⟨rfl, rfl, rfl⟩

end Cookbook
